import Mathlib

/-!
Verification of the job-pipeline core of `evoke-unified`.

This file gives a shallow embedding of the components that the claims
concern:

* the Job Ledger (PostgreSQL `jobs` table, schema in `database/schema.sql`,
  queries in `backend/src/db/queries.js`),
* the Progress Relay (`backend/src/services/jobQueue.js`: the `pmessage`
  handler and `handleJobEvent`),
* the Job Producer (`createAdAnalysisJob`, `createEmotionAnalysisJob`),
* the Fan-out Hub (`backend/src/services/socketService.js`, built on
  Socket.io room membership),
* the Client Progress Observer (`frontend/src/hooks/useJobProgress.js`
  together with `frontend/src/lib/socket.js`).

Database rows are lists of records; a SQL `UPDATE ... WHERE job_id = $1`
maps the update over the matching rows and fails (whole statement, no
change) when an updated row would violate a CHECK constraint, mirroring
PostgreSQL semantics.  `CURRENT_TIMESTAMP` is passed in as an explicit
`now : Nat` parameter.  Fallible steps return `Except`.
-/

namespace Evoke

/-- Job status column; the schema CHECK constraint allows exactly these
five values (`status IN ('queued','processing','completed','failed','cancelled')`). -/
inductive JobStatus
  | queued
  | processing
  | completed
  | failed
  | cancelled
  deriving DecidableEq, Repr

/-- Terminal statuses per the state machine: `completed`, `failed`, `cancelled`. -/
def JobStatus.isTerminal : JobStatus → Bool
  | .completed => true
  | .failed => true
  | .cancelled => true
  | _ => false

/-- One row of the `jobs` table (columns that the verified operations touch;
`worker_id` and `created_at` are never written by the code under study and
are omitted). -/
structure JobRow where
  job_id : String
  job_type : String
  reference_type : Option String
  reference_id : Option Int
  status : JobStatus
  progress : Int
  current_step : Option String
  error_message : Option String
  error_stack : Option String
  started_at : Option Nat
  completed_at : Option Nat
  deriving DecidableEq, Repr

/-- The schema CHECK constraint on `jobs.progress`:
`progress INTEGER DEFAULT 0 CHECK (progress BETWEEN 0 AND 100)`. -/
def jobRowCheck (r : JobRow) : Bool :=
  0 ≤ r.progress && r.progress ≤ 100

/-- A row of `ads` or `reaction_videos`, restricted to the columns the
job pipeline writes (`status`, `error_message`); the statuses written here
(`queued`, `completed`, `failed`) all satisfy those tables' CHECK
constraints, so entity updates never fail. -/
structure EntityRow where
  id : Int
  status : String
  error_message : Option String
  deriving DecidableEq, Repr

/-- Descriptor pushed onto `rq:queue:ad_analysis` by `createAdAnalysisJob`. -/
structure AdTask where
  job_id : String
  ad_id : Int
  file_path : String
  file_type : String
  deriving DecidableEq, Repr

/-- Descriptor pushed onto `rq:queue:emotion_analysis` by `createEmotionAnalysisJob`. -/
structure EmotionTask where
  job_id : String
  reaction_id : Int
  ad_id : Int
  file_path : String
  deriving DecidableEq, Repr

/-- State shared through the database and Redis queues.  `lpush` prepends,
so the queue lists are newest-first. -/
structure DB where
  jobs : List JobRow
  ads : List EntityRow
  reactions : List EntityRow
  adQueue : List AdTask
  emotionQueue : List EmotionTask
  deriving DecidableEq, Repr

/-- All job rows satisfy the schema CHECK constraint (true of every
database reachable through the embedded operations). -/
def dbOk (db : DB) : Bool :=
  db.jobs.all jobRowCheck

/-- Semantics of a SQL `UPDATE jobs SET ... WHERE job_id = $1`: apply
`upd` to every matching row; if any updated row violates the CHECK
constraint the whole statement fails and the database is unchanged. -/
def updateJobs (db : DB) (jobId : String) (upd : JobRow → JobRow) : Except Unit DB :=
  if db.jobs.all (fun r => r.job_id != jobId || jobRowCheck (upd r)) then
    .ok { db with jobs := db.jobs.map (fun r => if r.job_id == jobId then upd r else r) }
  else
    .error ()

/-- `queries.updateJobProgress`:
`UPDATE jobs SET progress = $2, current_step = $3, status = 'processing',
started_at = COALESCE(started_at, CURRENT_TIMESTAMP) WHERE job_id = $1`. -/
def updateJobProgress (db : DB) (jobId : String) (p : Int) (step : String) (now : Nat) :
    Except Unit DB :=
  updateJobs db jobId (fun r =>
    { r with
      progress := p
      current_step := some step
      status := .processing
      started_at := some (r.started_at.getD now) })

/-- `queries.completeJob`:
`UPDATE jobs SET status = 'completed', progress = 100,
completed_at = CURRENT_TIMESTAMP WHERE job_id = $1`. -/
def completeJob (db : DB) (jobId : String) (now : Nat) : Except Unit DB :=
  updateJobs db jobId (fun r =>
    { r with status := .completed, progress := 100, completed_at := some now })

/-- `queries.failJob`:
`UPDATE jobs SET status = 'failed', error_message = $2, error_stack = $3,
completed_at = CURRENT_TIMESTAMP WHERE job_id = $1`. -/
def failJob (db : DB) (jobId : String) (msg stk : Option String) (now : Nat) :
    Except Unit DB :=
  updateJobs db jobId (fun r =>
    { r with
      status := .failed
      error_message := msg
      error_stack := stk
      completed_at := some now })

/-- The row inserted by `queries.createJob` (remaining columns take their
schema defaults: `progress = 0`, everything else NULL). -/
def insertedJob (jobId jobType refType : String) (refId : Int) (st : JobStatus) : JobRow :=
  { job_id := jobId
    job_type := jobType
    reference_type := some refType
    reference_id := some refId
    status := st
    progress := 0
    current_step := none
    error_message := none
    error_stack := none
    started_at := none
    completed_at := none }

/-- `queries.createJob`: `INSERT INTO jobs (job_id, job_type, reference_type,
reference_id, status) VALUES ($1,$2,$3,$4,$5)`; fails on the UNIQUE
constraint when a row with the same `job_id` already exists. -/
def createJob (db : DB) (jobId jobType refType : String) (refId : Int) (st : JobStatus) :
    Except Unit DB :=
  if db.jobs.any (fun r => r.job_id == jobId) then
    .error ()
  else
    .ok { db with jobs := db.jobs ++ [insertedJob jobId jobType refType refId st] }

/-- `queries.updateAdStatus`:
`UPDATE ads SET status = $2, error_message = $3 WHERE id = $1`.
An absent `referenceId` reaches SQL as NULL and matches no row. -/
def updateAdStatus (db : DB) (adId : Option Int) (st : String) (err : Option String) : DB :=
  { db with
    ads := db.ads.map (fun a =>
      if some a.id == adId then { a with status := st, error_message := err } else a) }

/-- `queries.updateReactionStatus`:
`UPDATE reaction_videos SET status = $2, error_message = $3 WHERE id = $1`. -/
def updateReactionStatus (db : DB) (rid : Option Int) (st : String) (err : Option String) :
    DB :=
  { db with
    reactions := db.reactions.map (fun a =>
      if some a.id == rid then { a with status := st, error_message := err } else a) }

/-- Parsed JSON payload of a worker event (fields `handleJobEvent` reads;
a missing field is `none`, matching a missing JS property). -/
structure EventData where
  progress : Option Int
  step : Option String
  error : Option String
  stack : Option String
  referenceType : Option String
  referenceId : Option Int
  deriving DecidableEq, Repr

/-- An `EventData` with every field absent. -/
def EventData.empty : EventData :=
  { progress := none, step := none, error := none, stack := none
    referenceType := none, referenceId := none }

/-- `handleJobEvent` from `jobQueue.js`.  JS `data.progress || 0` and
`data.step || ''` become `getD` (JS `0` and `''` are falsy, so the
defaults agree).  The surrounding `try/catch` logs a failed database
write and keeps the state committed before the failure: each `db.query`
is an independently committed statement, and a thrown error skips the
rest of the case. -/
def handleJobEvent (eventType jobId : String) (data : EventData) (now : Nat) (db : DB) :
    DB :=
  match eventType with
  | "progress" =>
      match updateJobProgress db jobId (data.progress.getD 0) (data.step.getD "") now with
      | .ok db2 => db2
      | .error _ => db
  | "completed" =>
      match completeJob db jobId now with
      | .ok db2 =>
          if data.referenceType == some "ad" then
            updateAdStatus db2 data.referenceId "completed" none
          else if data.referenceType == some "reaction_video" then
            updateReactionStatus db2 data.referenceId "completed" none
          else db2
      | .error _ => db
  | "error" =>
      match failJob db jobId data.error (some (data.stack.getD "")) now with
      | .ok db2 =>
          if data.referenceType == some "ad" then
            updateAdStatus db2 data.referenceId "failed" data.error
          else if data.referenceType == some "reaction_video" then
            updateReactionStatus db2 data.referenceId "failed" data.error
          else db2
      | .error _ => db
  | _ => db

/-- A message delivered on the `job:*` pub/sub pattern, after the
`pmessage` handler's `JSON.parse` and `channel.split` step.  `malformed`
stands for a message whose `JSON.parse` throws; `valid` carries the
event type and job id recovered from the channel name and the parsed
payload, together with the delivery time. -/
inductive RawMsg
  | malformed
  | valid (eventType jobId : String) (data : EventData) (now : Nat)
  deriving DecidableEq, Repr

/-- Relay state: the database plus the count of messages logged by the
`pmessage` handler's `catch` branch. -/
structure RelayState where
  db : DB
  errorLog : Nat
  deriving DecidableEq, Repr

/-- One turn of the `pmessage` handler: a malformed message is caught and
logged before any database access; a valid one is passed to
`handleJobEvent` (the Socket.io broadcast it also performs is modelled
separately by `Hub.broadcast`). -/
def processMessage (st : RelayState) : RawMsg → RelayState
  | .malformed => { st with errorLog := st.errorLog + 1 }
  | .valid eventType jobId data now =>
      { st with db := handleJobEvent eventType jobId data now st.db }

/-- The Relay processing a sequence of messages in delivery order. -/
def processMessages (st : RelayState) (msgs : List RawMsg) : RelayState :=
  msgs.foldl processMessage st

/-- `createAdAnalysisJob` from `jobQueue.js`.  The fresh UUID is passed in
as `jobId` (v4 UUIDs are assumed globally unique); `queueUp` says whether
the Redis `lpush` succeeds.  A failing step throws, so the error result
carries the state committed before the failure, which the caller observes. -/
def createAdAnalysisJob (db : DB) (jobId : String) (adId : Int) (filePath fileType : String)
    (queueUp : Bool) : Except DB (DB × String) :=
  match createJob db jobId "ad_analysis" "ad" adId .queued with
  | .error _ => .error db
  | .ok db1 =>
      let db2 := updateAdStatus db1 (some adId) "queued" none
      if queueUp then
        .ok ({ db2 with
                adQueue := { job_id := jobId, ad_id := adId
                             file_path := filePath, file_type := fileType } :: db2.adQueue },
             jobId)
      else
        .error db2

/-- `createEmotionAnalysisJob` from `jobQueue.js`. -/
def createEmotionAnalysisJob (db : DB) (jobId : String) (reactionId : Int) (filePath : String)
    (adId : Int) (queueUp : Bool) : Except DB (DB × String) :=
  match createJob db jobId "emotion_analysis" "reaction_video" reactionId .queued with
  | .error _ => .error db
  | .ok db1 =>
      let db2 := updateReactionStatus db1 (some reactionId) "queued" none
      if queueUp then
        .ok ({ db2 with
                emotionQueue := { job_id := jobId, reaction_id := reactionId
                                  ad_id := adId, file_path := filePath } :: db2.emotionQueue },
             jobId)
      else
        .error db2

/-- `cancelJob` from `jobQueue.js`:
`UPDATE jobs SET status = 'cancelled' WHERE job_id = $1` followed by
`return true`; there is no row-existence or status check, and the UPDATE
cannot violate a constraint, so it always succeeds. -/
def cancelJob (db : DB) (jobId : String) : DB × Bool :=
  ({ db with
      jobs := db.jobs.map (fun r =>
        if r.job_id == jobId then { r with status := .cancelled } else r) },
   true)

/-- Outcome of `DELETE /api/jobs/:id` in `routes/jobs.js`. -/
inductive RouteResponse
  | notFound
  | cannotCancel (st : JobStatus)
  | cancelled
  deriving DecidableEq, Repr

/-- The `DELETE /api/jobs/:id` handler: 404 when `getJobByJobId` finds no
row; 400 unless the status is `queued` or `processing`; otherwise it calls
the service-level `cancelJob`. -/
def deleteJobRoute (db : DB) (id : String) : DB × RouteResponse :=
  match db.jobs.find? (fun r => r.job_id == id) with
  | none => (db, .notFound)
  | some job =>
      if job.status == .queued || job.status == .processing then
        ((cancelJob db id).1, .cancelled)
      else
        (db, .cannotCancel job.status)

/-- One Socket.io connection: its socket id and the rooms it has joined.
`socketService.js` keeps a `connectedClients` map whose `subscriptions`
set mirrors the room membership exactly (both are updated together on
`subscribe:job`/`unsubscribe:job`, and a disconnect drops both the map
entry and, per Socket.io, all room memberships), so one list models both. -/
structure HubConn where
  sid : String
  rooms : List String
  deriving DecidableEq, Repr

/-- The Fan-out Hub's subscription topology. -/
structure Hub where
  conns : List HubConn
  deriving DecidableEq, Repr

/-- The room name used for a job's topic: `job:` + job id. -/
def jobRoom (jobId : String) : String := "job:" ++ jobId

/-- `connection` handler: a new socket starts with no subscriptions. -/
def Hub.connect (h : Hub) (sid : String) : Hub :=
  { conns := h.conns ++ [{ sid := sid, rooms := [] }] }

/-- `subscribe:job` handler: `socket.join` on the job's room (idempotent). -/
def Hub.subscribeJob (h : Hub) (sid jobId : String) : Hub :=
  { conns := h.conns.map (fun c =>
      if c.sid == sid then
        { c with
          rooms := if c.rooms.contains (jobRoom jobId) then c.rooms
                   else c.rooms ++ [jobRoom jobId] }
      else c) }

/-- `unsubscribe:job` handler: `socket.leave` on the job's room. -/
def Hub.unsubscribeJob (h : Hub) (sid jobId : String) : Hub :=
  { conns := h.conns.map (fun c =>
      if c.sid == sid then
        { c with rooms := c.rooms.filter (fun room => room != jobRoom jobId) }
      else c) }

/-- `disconnect` handler: the socket leaves every room and its
`connectedClients` entry is removed. -/
def Hub.disconnect (h : Hub) (sid : String) : Hub :=
  { conns := h.conns.filter (fun c => c.sid != sid) }

/-- `io.to('job:' + jobId).emit(...)` (used by `emitProgress`,
`emitCompleted`, `emitError` and the Relay's own broadcast): the socket
ids the event is delivered to, namely the members of the job's room. -/
def Hub.broadcast (h : Hub) (jobId : String) : List String :=
  (h.conns.filter (fun c => c.rooms.contains (jobRoom jobId))).map (fun c => c.sid)

/-- Whether connection `sid` is currently subscribed to `jobId`'s topic. -/
def Hub.subscribedTo (h : Hub) (sid jobId : String) : Bool :=
  h.conns.any (fun c => c.sid == sid && c.rooms.contains (jobRoom jobId))

/-- Local state of `useJobProgress` (its six `useState` cells) together
with the active subscription (`sub`), i.e. the job topic whose handlers
are currently registered on the socket. -/
structure ObserverState where
  progress : Int
  step : String
  status : String
  error : Option String
  result : Option String
  frameResults : List String
  sub : Option String
  deriving DecidableEq, Repr

/-- JS truthiness of the `jobId` argument: `undefined`/`null` (here
`none`) and the empty string are falsy. -/
def isFalsyJobId : Option String → Bool
  | none => true
  | some s => s == ""

/-- The effect cleanup returned by `useJobProgress`: it calls the
`unsubscribe` closure from `subscribeToJob`, which leaves the job's room
and removes the three event handlers; no subscription remains.  (When the
previous run took the falsy branch it registered no cleanup, and `sub`
was already `none`.) -/
def effectCleanup (s : ObserverState) : ObserverState :=
  { s with sub := none }

/-- The body of the `useEffect` in `useJobProgress`, run after the
previous run's cleanup: a falsy job id resets status/progress/step/frame
results and subscribes to nothing (note: `error` and `result` keep their
previous values); a truthy one resets to `processing` and subscribes to
the job's topic. -/
def effectRun (jobId : Option String) (s : ObserverState) : ObserverState :=
  if isFalsyJobId jobId then
    { s with status := "idle", progress := 0, step := "", frameResults := [] }
  else
    { s with
      status := "processing", progress := 0, step := "Starting..."
      frameResults := [], sub := jobId }

/-- Changing the hook's `jobId` dependency: React runs the previous
effect's cleanup, then the effect with the new value. -/
def setJobId (s : ObserverState) (jobId : Option String) : ObserverState :=
  effectRun jobId (effectCleanup s)

/-- Unmounting the component (disposing the observer): only the cleanup runs. -/
def disposeObserver (s : ObserverState) : ObserverState :=
  effectCleanup s

/-! ### Basic lemmas about the embedded operations -/

theorem jobRoom_inj {a b : String} (h : jobRoom a = jobRoom b) : a = b := by
  have hd : (jobRoom a).data = (jobRoom b).data := congrArg String.data h
  simp [jobRoom, String.data_append] at hd
  exact String.ext hd

theorem updateJobs_ok {db : DB} {jobId : String} {upd : JobRow → JobRow}
    (hall : db.jobs.all (fun r => r.job_id != jobId || jobRowCheck (upd r)) = true) :
    updateJobs db jobId upd =
      .ok { db with jobs := db.jobs.map (fun r => if r.job_id == jobId then upd r else r) } := by
  simp [updateJobs, hall]

theorem completeJob_ok (db : DB) (jobId : String) (now : Nat) :
    completeJob db jobId now =
      .ok { db with jobs := db.jobs.map (fun r =>
              if r.job_id == jobId then
                { r with status := .completed, progress := 100, completed_at := some now }
              else r) } := by
  apply updateJobs_ok
  rw [List.all_eq_true]
  intro r _
  simp [jobRowCheck]

theorem failJob_ok {db : DB} (jobId : String) (msg stk : Option String) (now : Nat)
    (h : dbOk db = true) :
    failJob db jobId msg stk now =
      .ok { db with jobs := db.jobs.map (fun r =>
              if r.job_id == jobId then
                { r with status := .failed, error_message := msg, error_stack := stk,
                         completed_at := some now }
              else r) } := by
  apply updateJobs_ok
  rw [List.all_eq_true]
  intro r hr
  have := (List.all_eq_true.mp h) r hr
  simp [jobRowCheck] at this ⊢
  exact Or.inr this

theorem updateJobProgress_ok {db : DB} (jobId : String) {p : Int} (step : String) (now : Nat)
    (h0 : 0 ≤ p) (h1 : p ≤ 100) :
    updateJobProgress db jobId p step now =
      .ok { db with jobs := db.jobs.map (fun r =>
              if r.job_id == jobId then
                { r with progress := p, current_step := some step, status := .processing,
                         started_at := some (r.started_at.getD now) }
              else r) } := by
  apply updateJobs_ok
  rw [List.all_eq_true]
  intro r _
  simp [jobRowCheck, h0, h1]

theorem updateJobProgress_error {db : DB} {jobId : String} {p : Int} (step : String) (now : Nat)
    (hp : p < 0 ∨ 100 < p) (hex : db.jobs.any (fun r => r.job_id == jobId) = true) :
    updateJobProgress db jobId p step now = .error () := by
  unfold updateJobProgress updateJobs
  rw [if_neg]
  intro hall
  obtain ⟨r, hr, hjr⟩ := List.any_eq_true.mp hex
  simp only [beq_iff_eq] at hjr
  have := (List.all_eq_true.mp hall) r hr
  simp [hjr, jobRowCheck] at this
  obtain ⟨h0, h1⟩ := this
  rcases hp with hp | hp <;> omega

theorem updateAdStatus_jobs (db : DB) (a : Option Int) (st : String) (e : Option String) :
    (updateAdStatus db a st e).jobs = db.jobs := rfl

theorem updateReactionStatus_jobs (db : DB) (a : Option Int) (st : String) (e : Option String) :
    (updateReactionStatus db a st e).jobs = db.jobs := rfl

theorem handleJobEvent_progress (jobId : String) (d : EventData) (now : Nat) (db : DB) :
    handleJobEvent "progress" jobId d now db =
      match updateJobProgress db jobId (d.progress.getD 0) (d.step.getD "") now with
      | .ok db2 => db2
      | .error _ => db := rfl

theorem handleJobEvent_completed (jobId : String) (d : EventData) (now : Nat) (db : DB) :
    handleJobEvent "completed" jobId d now db =
      match completeJob db jobId now with
      | .ok db2 =>
          if d.referenceType == some "ad" then
            updateAdStatus db2 d.referenceId "completed" none
          else if d.referenceType == some "reaction_video" then
            updateReactionStatus db2 d.referenceId "completed" none
          else db2
      | .error _ => db := rfl

theorem handleJobEvent_error (jobId : String) (d : EventData) (now : Nat) (db : DB) :
    handleJobEvent "error" jobId d now db =
      match failJob db jobId d.error (some (d.stack.getD "")) now with
      | .ok db2 =>
          if d.referenceType == some "ad" then
            updateAdStatus db2 d.referenceId "failed" d.error
          else if d.referenceType == some "reaction_video" then
            updateReactionStatus db2 d.referenceId "failed" d.error
          else db2
      | .error _ => db := rfl

theorem handleJobEvent_completed_jobs (jobId : String) (d : EventData) (now : Nat) (db : DB) :
    (handleJobEvent "completed" jobId d now db).jobs =
      db.jobs.map (fun r =>
        if r.job_id == jobId then
          { r with status := .completed, progress := 100, completed_at := some now }
        else r) := by
  rw [handleJobEvent_completed, completeJob_ok]
  by_cases h1 : d.referenceType == some "ad"
  · simp [h1, updateAdStatus_jobs]
  · by_cases h2 : d.referenceType == some "reaction_video"
    · simp [h1, h2, updateReactionStatus_jobs]
    · simp [h1, h2]

theorem handleJobEvent_error_jobs {db : DB} (jobId : String) (d : EventData) (now : Nat)
    (hok : dbOk db = true) :
    (handleJobEvent "error" jobId d now db).jobs =
      db.jobs.map (fun r =>
        if r.job_id == jobId then
          { r with status := .failed, error_message := d.error,
                   error_stack := some (d.stack.getD ""), completed_at := some now }
        else r) := by
  rw [handleJobEvent_error, failJob_ok jobId d.error (some (d.stack.getD "")) now hok]
  by_cases h1 : d.referenceType == some "ad"
  · simp [h1, updateAdStatus_jobs]
  · by_cases h2 : d.referenceType == some "reaction_video"
    · simp [h1, h2, updateReactionStatus_jobs]
    · simp [h1, h2]

theorem handleJobEvent_progress_jobs {db : DB} (jobId : String) (d : EventData) (now : Nat)
    (h0 : 0 ≤ d.progress.getD 0) (h1 : d.progress.getD 0 ≤ 100) :
    (handleJobEvent "progress" jobId d now db).jobs =
      db.jobs.map (fun r =>
        if r.job_id == jobId then
          { r with progress := d.progress.getD 0, current_step := some (d.step.getD ""),
                   status := .processing, started_at := some (r.started_at.getD now) }
        else r) := by
  rw [handleJobEvent_progress, updateJobProgress_ok jobId (d.step.getD "") now h0 h1]

theorem handleJobEvent_progress_drop {db : DB} {jobId : String} {d : EventData} {now : Nat}
    (herr : updateJobProgress db jobId (d.progress.getD 0) (d.step.getD "") now = .error ()) :
    handleJobEvent "progress" jobId d now db = db := by
  rw [handleJobEvent_progress, herr]

theorem jobs_of_updateJobs_ok {db db' : DB} {jobId : String} {upd : JobRow → JobRow}
    (heq : updateJobs db jobId upd = .ok db') :
    db'.jobs = db.jobs.map (fun r => if r.job_id == jobId then upd r else r) := by
  unfold updateJobs at heq
  split at heq
  · cases heq; rfl
  · cases heq

theorem dbOk_of_updateJobs_ok {db db' : DB} {jobId : String} {upd : JobRow → JobRow}
    (h : dbOk db = true) (heq : updateJobs db jobId upd = .ok db') : dbOk db' = true := by
  unfold updateJobs at heq
  split at heq
  · rename_i hall
    cases heq
    unfold dbOk at h ⊢
    rw [List.all_eq_true] at h ⊢
    intro r hr
    rw [List.mem_map] at hr
    obtain ⟨r0, h0, rfl⟩ := hr
    by_cases hc : r0.job_id == jobId
    · have := List.all_eq_true.mp hall r0 h0
      simp only [hc, Bool.true_or, bne, Bool.not_true, Bool.false_or] at this
      simp [hc, this]
    · simp [hc]
      exact h r0 h0
  · cases heq

theorem dbOk_handleJobEvent (eventType jobId : String) (d : EventData) (now : Nat) (db : DB)
    (h : dbOk db = true) : dbOk (handleJobEvent eventType jobId d now db) = true := by
  unfold handleJobEvent
  split
  · -- progress
    split
    · rename_i db2 heq
      unfold updateJobProgress at heq
      exact dbOk_of_updateJobs_ok h heq
    · exact h
  · -- completed
    split
    · rename_i db2 heq
      unfold completeJob at heq
      have hdb2 : dbOk db2 = true := dbOk_of_updateJobs_ok h heq
      split
      · exact hdb2
      · split
        · exact hdb2
        · exact hdb2
    · exact h
  · -- error
    split
    · rename_i db2 heq
      unfold failJob at heq
      have hdb2 : dbOk db2 = true := dbOk_of_updateJobs_ok h heq
      split
      · exact hdb2
      · split
        · exact hdb2
        · exact hdb2
    · exact h
  · exact h

theorem dbOk_processMessages (msgs : List RawMsg) (st : RelayState)
    (h : dbOk st.db = true) : dbOk (processMessages st msgs).db = true := by
  induction msgs generalizing st with
  | nil => exact h
  | cons m rest ih =>
      cases m with
      | malformed => exact ih _ h
      | valid et j d n => exact ih _ (dbOk_handleJobEvent et j d n st.db h)

/-- `started_at` for every row of `jobId` is fixed at `some t`. -/
def startedAtPinned (db : DB) (jobId : String) (t : Nat) : Bool :=
  db.jobs.all (fun r => r.job_id != jobId || r.started_at == some t)

theorem startedAtPinned_map {db : DB} {jobId : String} {t : Nat} (j0 : String)
    (upd : JobRow → JobRow) (h : startedAtPinned db jobId t = true)
    (hid : ∀ r, (upd r).job_id = r.job_id)
    (hst : ∀ r, r.started_at = some t → (upd r).started_at = some t) :
    (db.jobs.map (fun r => if r.job_id == j0 then upd r else r)).all
      (fun r => r.job_id != jobId || r.started_at == some t) = true := by
  rw [List.all_eq_true]
  intro r hr
  rw [List.mem_map] at hr
  obtain ⟨r0, h0, rfl⟩ := hr
  have hp := List.all_eq_true.mp h r0 h0
  by_cases hc : r0.job_id == j0
  · simp only [hc, if_true]
    by_cases hj : r0.job_id = jobId
    · simp only [hj, bne_self_eq_false, Bool.false_or, beq_iff_eq] at hp
      simp [hid, hj, hst r0 hp]
    · simp [hid, hj]
  · simp only [hc, if_false]
    exact hp

theorem startedAtPinned_handleJobEvent (eventType j0 : String) (d : EventData) (now : Nat)
    (db : DB) (jobId : String) (t : Nat) (h : startedAtPinned db jobId t = true) :
    startedAtPinned (handleJobEvent eventType j0 d now db) jobId t = true := by
  unfold handleJobEvent
  split
  · -- progress
    split
    · rename_i db2 heq
      unfold updateJobProgress at heq
      unfold startedAtPinned
      rw [jobs_of_updateJobs_ok heq]
      refine startedAtPinned_map _ _ h (fun r => rfl) (fun r hr => ?_)
      show some (r.started_at.getD now) = some t
      rw [hr]
      rfl
    · exact h
  · -- completed
    split
    · rename_i db2 heq
      unfold completeJob at heq
      have hdb2 : startedAtPinned db2 jobId t = true := by
        unfold startedAtPinned
        rw [jobs_of_updateJobs_ok heq]
        exact startedAtPinned_map _ _ h (fun r => rfl) (fun r hr => hr)
      split
      · exact hdb2
      · split
        · exact hdb2
        · exact hdb2
    · exact h
  · -- error
    split
    · rename_i db2 heq
      unfold failJob at heq
      have hdb2 : startedAtPinned db2 jobId t = true := by
        unfold startedAtPinned
        rw [jobs_of_updateJobs_ok heq]
        exact startedAtPinned_map _ _ h (fun r => rfl) (fun r hr => hr)
      split
      · exact hdb2
      · split
        · exact hdb2
        · exact hdb2
    · exact h
  · exact h

theorem startedAtPinned_processMessages (msgs : List RawMsg) (st : RelayState)
    (jobId : String) (t : Nat) (h : startedAtPinned st.db jobId t = true) :
    startedAtPinned (processMessages st msgs).db jobId t = true := by
  induction msgs generalizing st with
  | nil => exact h
  | cons m rest ih =>
      cases m with
      | malformed => exact ih _ h
      | valid et j d n => exact ih _ (startedAtPinned_handleJobEvent et j d n st.db jobId t h)

theorem row_of_mem_map_update {l : List JobRow} {j : String} {upd : JobRow → JobRow} {r : JobRow}
    (hr : r ∈ l.map (fun r0 => if r0.job_id == j then upd r0 else r0)) :
    (∃ r0 ∈ l, (r0.job_id == j) = true ∧ r = upd r0) ∨ (r ∈ l ∧ (r.job_id == j) = false) := by
  rw [List.mem_map] at hr
  obtain ⟨r0, h0, rfl⟩ := hr
  by_cases hc : r0.job_id == j
  · exact Or.inl ⟨r0, h0, hc, by rw [if_pos hc]⟩
  · rw [if_neg hc]
    exact Or.inr ⟨h0, by simpa using hc⟩

theorem map_eq_self_of_eq {α : Type} {l : List α} {f : α → α}
    (h : ∀ r ∈ l, f r = r) : l.map f = l := by
  induction l with
  | nil => rfl
  | cons a t ih =>
      simp only [List.map_cons, h a (by simp)]
      rw [ih (fun r hr => h r (by simp [hr]))]

/-! ### Concrete fixtures for witnesses and counterexamples -/

/-- An ad mid-analysis. -/
def adRow1 : EntityRow := { id := 1, status := "processing", error_message := none }

/-- A reaction video not yet analysed. -/
def reactionRow2 : EntityRow := { id := 2, status := "uploaded", error_message := none }

/-- A job already in the terminal state `failed`. -/
def rowFailedJ1 : JobRow :=
  { job_id := "J1", job_type := "ad_analysis", reference_type := some "ad"
    reference_id := some 1, status := .failed, progress := 60
    current_step := some "detect", error_message := some "boom"
    error_stack := some "", started_at := some 1, completed_at := some 2 }

/-- A job in `processing` with stored progress 80. -/
def rowProcessingJ1 : JobRow :=
  { job_id := "J1", job_type := "ad_analysis", reference_type := some "ad"
    reference_id := some 1, status := .processing, progress := 80
    current_step := some "detect", error_message := none
    error_stack := none, started_at := some 1, completed_at := none }

/-- A freshly created job, still `queued`, no progress event yet. -/
def rowQueuedJ2 : JobRow :=
  { job_id := "J2", job_type := "emotion_analysis", reference_type := some "reaction_video"
    reference_id := some 2, status := .queued, progress := 0
    current_step := none, error_message := none
    error_stack := none, started_at := none, completed_at := none }

/-- Ledger holding only the terminal job `J1`. -/
def dbTerminal : DB :=
  { jobs := [rowFailedJ1], ads := [adRow1], reactions := [reactionRow2]
    adQueue := [], emotionQueue := [] }

/-- Ledger holding only the processing job `J1` at progress 80. -/
def dbProcessing : DB :=
  { jobs := [rowProcessingJ1], ads := [adRow1], reactions := [reactionRow2]
    adQueue := [], emotionQueue := [] }

/-- Ledger holding only the queued job `J2`. -/
def dbQueued : DB :=
  { jobs := [rowQueuedJ2], ads := [adRow1], reactions := [reactionRow2]
    adQueue := [], emotionQueue := [] }

/-- Ledger with no jobs at all. -/
def dbEmpty : DB :=
  { jobs := [], ads := [adRow1], reactions := [reactionRow2]
    adQueue := [], emotionQueue := [] }

/-- An event payload carrying only a progress value. -/
def dProg (p : Int) : EventData := { EventData.empty with progress := some p }

/-! ### Claims -/

/-- C10: the service-level `cancelJob` returns `true` for every input job
id — including one with no corresponding ledger row and one whose job is
already terminal — and unconditionally issues the ledger update marking
every matching row `cancelled`; the queued-or-processing precondition is
enforced solely by the `DELETE /api/jobs/:id` route, which refuses a
terminal job without touching the ledger. -/
theorem cancelJob_unconditional (db : DB) (jobId : String) :
    (cancelJob db jobId).2 = true
    ∧ (∀ r ∈ (cancelJob db jobId).1.jobs, r.job_id = jobId → r.status = .cancelled)
    ∧ ((∀ r ∈ db.jobs, r.job_id ≠ jobId) → (cancelJob db jobId).1 = db)
    ∧ (∀ job, db.jobs.find? (fun r => r.job_id == jobId) = some job →
        job.status.isTerminal = true →
        deleteJobRoute db jobId = (db, .cannotCancel job.status)) := by
  refine ⟨rfl, ?_, ?_, ?_⟩
  · intro r hr hj
    rcases row_of_mem_map_update hr with ⟨r0, _, _, rfl⟩ | ⟨_, hne⟩
    · rfl
    · rw [hj] at hne
      simp at hne
  · intro hall
    have hmap : db.jobs.map
        (fun r => if r.job_id == jobId then { r with status := JobStatus.cancelled } else r)
          = db.jobs := by
      apply map_eq_self_of_eq
      intro r hr
      have hne := hall r hr
      simp [hne]
    show { db with jobs := db.jobs.map _ } = db
    rw [hmap]
  · intro job hfind hterm
    unfold deleteJobRoute
    rw [hfind]
    have hcond : (job.status == JobStatus.queued || job.status == JobStatus.processing)
        = false := by
      cases hst : job.status <;> simp_all [JobStatus.isTerminal]
    simp [hcond]

/-- Witness for C10 at concrete inputs: cancelling a missing id still
returns `true`, and the route refuses the already-failed job `J1`. -/
theorem cancelJob_unconditional_witness :
    (cancelJob dbTerminal "missing").2 = true
    ∧ deleteJobRoute dbTerminal "J1" = (dbTerminal, .cannotCancel .failed) :=
  ⟨(cancelJob_unconditional dbTerminal "missing").1,
   (cancelJob_unconditional dbTerminal "J1").2.2.2 rowFailedJ1 (by decide) (by decide)⟩

/-- C1 counterexample: the claim "a completed or error event delivered to
an already-terminal job leaves the ledger record unchanged" is false: on
the failed job `J1`, a completed event rewrites the row (status becomes
`completed`, progress 100, `completed_at` refreshed), because
`completeJob`/`failJob` carry no terminal-state guard in their WHERE
clause. -/
theorem duplicateTerminal_noop_counterexample :
    ¬ (∀ (db : DB) (r : JobRow) (d : EventData) (now : Nat),
        r ∈ db.jobs → r.status.isTerminal = true →
        (handleJobEvent "completed" r.job_id d now db).jobs = db.jobs
        ∧ (handleJobEvent "error" r.job_id d now db).jobs = db.jobs) := by
  intro h
  have := (h dbTerminal rowFailedJ1 EventData.empty 5 (by decide) (by decide)).1
  exact absurd this (by decide)

/-- C1 (amended): delivering a completed or error event to an
already-terminal job is not a no-op — the Relay re-applies the terminal
update unconditionally.  A completed event sets `status=completed`,
`progress=100` and overwrites `completed_at` with the event's delivery
time; an error event sets `status=failed` and overwrites `error_message`,
`error_stack` and `completed_at`; this holds for every job row, terminal
or not. -/
theorem duplicateTerminal_overwrites (db : DB) (jobId : String) (d : EventData) (now : Nat)
    (hok : dbOk db = true) :
    (handleJobEvent "completed" jobId d now db).jobs
      = db.jobs.map (fun r =>
          if r.job_id == jobId then
            { r with status := .completed, progress := 100, completed_at := some now }
          else r)
    ∧ (handleJobEvent "error" jobId d now db).jobs
      = db.jobs.map (fun r =>
          if r.job_id == jobId then
            { r with status := .failed, error_message := d.error,
                     error_stack := some (d.stack.getD ""), completed_at := some now }
          else r) :=
  ⟨handleJobEvent_completed_jobs jobId d now db,
   handleJobEvent_error_jobs jobId d now hok⟩

/-- Witness for C1 (amended) on the terminal ledger `dbTerminal`. -/
theorem duplicateTerminal_overwrites_witness :
    (handleJobEvent "completed" "J1" EventData.empty 7 dbTerminal).jobs
      = dbTerminal.jobs.map (fun r =>
          if r.job_id == "J1" then
            { r with status := .completed, progress := 100, completed_at := some 7 }
          else r) :=
  (duplicateTerminal_overwrites dbTerminal "J1" EventData.empty 7 (by decide)).1

/-- C3 counterexample: the claim "a progress event on a terminal job
leaves the job row unchanged" is false: `updateJobProgress` has no status
guard in its WHERE clause, so a progress event on the failed job `J1`
moves it back to `status=processing`. -/
theorem progressOnTerminal_noop_counterexample :
    ¬ (∀ (db : DB) (r : JobRow) (d : EventData) (now : Nat),
        r ∈ db.jobs → r.status.isTerminal = true →
        (handleJobEvent "progress" r.job_id d now db).jobs = db.jobs) := by
  intro h
  have := h dbTerminal rowFailedJ1 (dProg 50) 5 (by decide) (by decide)
  exact absurd this (by decide)

/-- C3 (amended): a progress event is applied regardless of the job's
status.  With an in-range value (after JS defaulting of a missing value
to 0) it sets `progress`, `current_step`, `status=processing` — also on a
completed, failed or cancelled job — and `started_at` if unset; in
particular every job row matching the id, including a queued one on its
first progress event, ends in `status=processing`.  Only an out-of-range
value leaves the ledger unchanged: the UPDATE violates the schema CHECK
constraint, fails, and the event is dropped. -/
theorem progress_ignores_terminal_guard (db : DB) (jobId : String) (d : EventData)
    (now : Nat) :
    (0 ≤ d.progress.getD 0 → d.progress.getD 0 ≤ 100 →
      (handleJobEvent "progress" jobId d now db).jobs
        = db.jobs.map (fun r =>
            if r.job_id == jobId then
              { r with progress := d.progress.getD 0, current_step := some (d.step.getD "")
                       status := .processing, started_at := some (r.started_at.getD now) }
            else r)
      ∧ ∀ r ∈ (handleJobEvent "progress" jobId d now db).jobs, r.job_id = jobId →
          r.status = .processing)
    ∧ ((d.progress.getD 0 < 0 ∨ 100 < d.progress.getD 0) →
        db.jobs.any (fun r => r.job_id == jobId) = true →
        handleJobEvent "progress" jobId d now db = db) := by
  constructor
  · intro h0 h1
    have hjobs := @handleJobEvent_progress_jobs db jobId d now h0 h1
    refine ⟨hjobs, ?_⟩
    intro r hr hj
    rw [hjobs] at hr
    rcases row_of_mem_map_update hr with ⟨r0, _, _, rfl⟩ | ⟨_, hne⟩
    · rfl
    · rw [hj] at hne
      simp at hne
  · intro hp hex
    exact handleJobEvent_progress_drop (updateJobProgress_error (d.step.getD "") now hp hex)

/-- Witness for C3 (amended): a progress event at 50 on the failed job
`J1` applies and moves it to `processing`; progress 200 on the same job
is dropped. -/
theorem progress_ignores_terminal_guard_witness :
    ((handleJobEvent "progress" "J1" (dProg 50) 9 dbTerminal).jobs
        = dbTerminal.jobs.map (fun r =>
            if r.job_id == "J1" then
              { r with progress := (50 : Int), current_step := some ""
                       status := .processing, started_at := some (r.started_at.getD 9) }
            else r)
      ∧ ∀ r ∈ (handleJobEvent "progress" "J1" (dProg 50) 9 dbTerminal).jobs,
          r.job_id = "J1" → r.status = .processing)
    ∧ handleJobEvent "progress" "J1" (dProg 200) 9 dbTerminal = dbTerminal :=
  ⟨(progress_ignores_terminal_guard dbTerminal "J1" (dProg 50) 9).1 (by decide) (by decide),
   (progress_ignores_terminal_guard dbTerminal "J1" (dProg 200) 9).2 (by decide) (by decide)⟩

/-- C2 counterexample: stored progress is not monotonically
non-decreasing on a non-terminal job: `updateJobProgress` stores the
incoming value unconditionally, so a progress event at 30 on the
processing job `J1` (stored progress 80) overwrites 80 with 30. -/
theorem progress_monotone_counterexample :
    ¬ (∀ (db : DB) (jobId : String) (d : EventData) (now : Nat),
        (∀ r ∈ db.jobs, r.job_id = jobId → r.status.isTerminal = false) →
        ∀ r ∈ db.jobs, r.job_id = jobId →
          ∀ r2 ∈ (handleJobEvent "progress" jobId d now db).jobs, r2.job_id = jobId →
            r.progress ≤ r2.progress) := by
  intro h
  have := h dbProcessing "J1" (dProg 30) 5 (by decide)
  exact absurd this (by decide)

/-- C2 (amended): stored progress always lies in [0,100], but by the
schema CHECK constraint rather than clamping: over every message
sequence the ledger stays within range (`dbOk` is preserved); an
in-range incoming value is stored exactly as received, not clamped; and
an out-of-range value makes the UPDATE fail, so the event is dropped and
the row keeps its previous progress.  Monotonicity is not enforced: a
smaller in-range value overwrites a larger stored one (see the
counterexample). -/
theorem progress_range_by_constraint (st : RelayState) (msgs : List RawMsg) (db : DB)
    (jobId : String) (d : EventData) (now : Nat) (hok : dbOk st.db = true) :
    dbOk (processMessages st msgs).db = true
    ∧ (0 ≤ d.progress.getD 0 → d.progress.getD 0 ≤ 100 →
        ∀ r ∈ (handleJobEvent "progress" jobId d now db).jobs, r.job_id = jobId →
          r.progress = d.progress.getD 0)
    ∧ ((d.progress.getD 0 < 0 ∨ 100 < d.progress.getD 0) →
        db.jobs.any (fun r => r.job_id == jobId) = true →
        handleJobEvent "progress" jobId d now db = db) := by
  refine ⟨dbOk_processMessages msgs st hok, ?_, ?_⟩
  · intro h0 h1 r hr hj
    rw [handleJobEvent_progress_jobs jobId d now h0 h1] at hr
    rcases row_of_mem_map_update hr with ⟨r0, _, _, rfl⟩ | ⟨_, hne⟩
    · rfl
    · rw [hj] at hne
      simp at hne
  · intro hp hex
    exact handleJobEvent_progress_drop (updateJobProgress_error (d.step.getD "") now hp hex)

/-- Witness for C2 (amended): the queued ledger stays in range across a
malformed message, an in-range and an out-of-range progress event; the
in-range value 40 is stored as-is; 200 is dropped. -/
theorem progress_range_by_constraint_witness :
    dbOk (processMessages ⟨dbQueued, 0⟩
        [.malformed, .valid "progress" "J2" (dProg 40) 3, .valid "progress" "J2" (dProg 200) 4]).db
      = true
    ∧ (∀ r ∈ (handleJobEvent "progress" "J2" (dProg 40) 3 dbQueued).jobs, r.job_id = "J2" →
        r.progress = (dProg 40).progress.getD 0)
    ∧ handleJobEvent "progress" "J2" (dProg 200) 4 dbQueued = dbQueued := by
  have h := progress_range_by_constraint ⟨dbQueued, 0⟩
    [.malformed, .valid "progress" "J2" (dProg 40) 3, .valid "progress" "J2" (dProg 200) 4]
    dbQueued "J2" (dProg 40) 3 (by decide)
  have h2 := progress_range_by_constraint ⟨dbQueued, 0⟩ [] dbQueued "J2" (dProg 200) 4
    (by decide)
  exact ⟨h.1, h.2.1 (by decide) (by decide), h2.2.2 (by decide) (by decide)⟩

/-- C4 counterexample: `completed_at` is not written at most once: the
failed job `J1` has `completed_at = some 2`, and a later completed event
delivered at time 9 rewrites it to `some 9`, because `completeJob` sets
`completed_at = CURRENT_TIMESTAMP` unconditionally. -/
theorem completedAt_once_counterexample :
    ¬ (∀ (db : DB) (jobId : String) (d : EventData) (now t : Nat),
        (∀ r ∈ db.jobs, r.job_id = jobId → r.completed_at = some t) →
        ∀ r ∈ (handleJobEvent "completed" jobId d now db).jobs, r.job_id = jobId →
          r.completed_at = some t) := by
  intro h
  have := h dbTerminal "J1" EventData.empty 9 2 (by decide)
  exact absurd this (by decide)

/-- C4 (amended): `started_at` is written at most once — once a job's
rows carry `started_at = some t`, every further sequence of Relay events
(progress, completed, error, malformed, unknown) leaves it at `some t`,
because `updateJobProgress` uses `COALESCE(started_at, now)` and the
terminal updates never touch it.  `completed_at`, by contrast, is
overwritten by every completed (and error) event: after a completed
event at time `now`, every matching row has `completed_at = some now`,
whatever was stored before. -/
theorem startedAt_once_completedAt_rewritten (st : RelayState) (msgs : List RawMsg)
    (jobId : String) (t : Nat) (db : DB) (d : EventData) (now : Nat)
    (hpin : startedAtPinned st.db jobId t = true) :
    startedAtPinned (processMessages st msgs).db jobId t = true
    ∧ (∀ r ∈ (handleJobEvent "completed" jobId d now db).jobs, r.job_id = jobId →
        r.completed_at = some now) := by
  refine ⟨startedAtPinned_processMessages msgs st jobId t hpin, ?_⟩
  intro r hr hj
  rw [handleJobEvent_completed_jobs] at hr
  rcases row_of_mem_map_update hr with ⟨r0, _, _, rfl⟩ | ⟨_, hne⟩
  · rfl
  · rw [hj] at hne
    simp at hne

/-- Witness for C4 (amended): on the processing ledger (`started_at =
some 1` for `J1`) a progress, completed and duplicate completed sequence
keeps `started_at` at `some 1`, while the completed event at time 9
stamps `completed_at = some 9`. -/
theorem startedAt_once_completedAt_rewritten_witness :
    startedAtPinned (processMessages ⟨dbProcessing, 0⟩
        [.valid "progress" "J1" (dProg 90) 3, .valid "completed" "J1" EventData.empty 5,
         .valid "completed" "J1" EventData.empty 6]).db "J1" 1 = true
    ∧ (∀ r ∈ (handleJobEvent "completed" "J1" EventData.empty 9 dbProcessing).jobs,
        r.job_id = "J1" → r.completed_at = some 9) :=
  (startedAt_once_completedAt_rewritten ⟨dbProcessing, 0⟩
    [.valid "progress" "J1" (dProg 90) 3, .valid "completed" "J1" EventData.empty 5,
     .valid "completed" "J1" EventData.empty 6] "J1" 1 dbProcessing EventData.empty 9
    (by decide))

theorem createJob_ok {db : DB} {jobId : String} (jobType refType : String) (refId : Int)
    (st : JobStatus) (hfresh : db.jobs.any (fun r => r.job_id == jobId) = false) :
    createJob db jobId jobType refType refId st =
      .ok { db with jobs := db.jobs ++ [insertedJob jobId jobType refType refId st] } := by
  simp [createJob, hfresh]

/-- C5: each Producer call, given a fresh job id (v4 UUIDs are assumed
globally unique), writes exactly one `queued` ledger row, sets the
referenced entity's status to `queued`, enqueues exactly one task
descriptor carrying the job id, and returns that id synchronously; if the
enqueue fails, the error is surfaced while the `queued` row (and entity
update) persist and the queue is untouched. -/
theorem producer_contract (db : DB) (jobId : String) (adId reactionId adId2 : Int)
    (fp ft fp2 : String)
    (hfresh : db.jobs.any (fun r => r.job_id == jobId) = false) :
    (∃ dbq, createAdAnalysisJob db jobId adId fp ft true = .ok (dbq, jobId)
      ∧ dbq.jobs = db.jobs ++ [insertedJob jobId "ad_analysis" "ad" adId .queued]
      ∧ (∀ a ∈ dbq.ads, a.id = adId → a.status = "queued" ∧ a.error_message = none)
      ∧ dbq.adQueue = { job_id := jobId, ad_id := adId, file_path := fp, file_type := ft }
          :: db.adQueue
      ∧ dbq.emotionQueue = db.emotionQueue)
    ∧ (∃ dbe, createAdAnalysisJob db jobId adId fp ft false = .error dbe
      ∧ dbe.jobs = db.jobs ++ [insertedJob jobId "ad_analysis" "ad" adId .queued]
      ∧ dbe.adQueue = db.adQueue)
    ∧ (∃ dbq, createEmotionAnalysisJob db jobId reactionId fp2 adId2 true = .ok (dbq, jobId)
      ∧ dbq.jobs = db.jobs
          ++ [insertedJob jobId "emotion_analysis" "reaction_video" reactionId .queued]
      ∧ (∀ a ∈ dbq.reactions, a.id = reactionId → a.status = "queued" ∧ a.error_message = none)
      ∧ dbq.emotionQueue =
          { job_id := jobId, reaction_id := reactionId, ad_id := adId2, file_path := fp2 }
            :: db.emotionQueue
      ∧ dbq.adQueue = db.adQueue)
    ∧ (∃ dbe, createEmotionAnalysisJob db jobId reactionId fp2 adId2 false = .error dbe
      ∧ dbe.jobs = db.jobs
          ++ [insertedJob jobId "emotion_analysis" "reaction_video" reactionId .queued]
      ∧ dbe.emotionQueue = db.emotionQueue) := by
  have hentity : ∀ (l : List EntityRow) (i : Int) (st2 : String),
      ∀ a ∈ l.map (fun a => if some a.id == some i then
          { a with status := st2, error_message := none } else a),
        a.id = i → a.status = st2 ∧ a.error_message = none := by
    intro l i st2 a ha hai
    rw [List.mem_map] at ha
    obtain ⟨a0, h0, rfl⟩ := ha
    by_cases hc : some a0.id == some i
    · rw [if_pos hc]
      exact ⟨rfl, rfl⟩
    · rw [if_neg hc] at hai ⊢
      rw [hai] at hc
      simp at hc
  refine ⟨?_, ?_, ?_, ?_⟩
  · unfold createAdAnalysisJob
    rw [createJob_ok "ad_analysis" "ad" adId .queued hfresh]
    exact ⟨_, rfl, rfl, hentity _ adId "queued", rfl, rfl⟩
  · unfold createAdAnalysisJob
    rw [createJob_ok "ad_analysis" "ad" adId .queued hfresh]
    exact ⟨_, rfl, rfl, rfl⟩
  · unfold createEmotionAnalysisJob
    rw [createJob_ok "emotion_analysis" "reaction_video" reactionId .queued hfresh]
    exact ⟨_, rfl, rfl, hentity _ reactionId "queued", rfl, rfl⟩
  · unfold createEmotionAnalysisJob
    rw [createJob_ok "emotion_analysis" "reaction_video" reactionId .queued hfresh]
    exact ⟨_, rfl, rfl, rfl⟩

theorem entity_status_after_update (l : List EntityRow) (i : Int) (st2 : String)
    (e : Option String) :
    ∀ a ∈ l.map (fun a => if some a.id == some i then
        { a with status := st2, error_message := e } else a),
      a.id = i → a.status = st2 ∧ a.error_message = e := by
  intro a ha hai
  rw [List.mem_map] at ha
  obtain ⟨a0, h0, rfl⟩ := ha
  by_cases hc : some a0.id == some i
  · rw [if_pos hc]
    exact ⟨rfl, rfl⟩
  · rw [if_neg hc] at hai ⊢
    rw [hai] at hc
    simp at hc

/-- Witness for C5 on the empty ledger with the fresh id `N1`. -/
theorem producer_contract_witness :
    ∃ dbq, createAdAnalysisJob dbEmpty "N1" 1 "/u/a.mp4" "video" true = .ok (dbq, "N1")
      ∧ dbq.jobs = dbEmpty.jobs ++ [insertedJob "N1" "ad_analysis" "ad" 1 .queued]
      ∧ (∀ a ∈ dbq.ads, a.id = 1 → a.status = "queued" ∧ a.error_message = none)
      ∧ dbq.adQueue = { job_id := "N1", ad_id := 1, file_path := "/u/a.mp4"
                        file_type := "video" } :: dbEmpty.adQueue
      ∧ dbq.emotionQueue = dbEmpty.emotionQueue :=
  (producer_contract dbEmpty "N1" 1 2 1 "/u/a.mp4" "video" "/u/r.mp4" (by decide)).1

/-- C6: a completed event makes every ledger row of the job
`status=completed, progress=100, completed_at=now`; an error event
carrying message `msg` makes every ledger row of the job — including a
still-queued one with no prior progress event — `status=failed` with
`error_message`, `error_stack` and `completed_at` persisted.  The
referenced entity's own status is propagated for both entity kinds the
Relay knows: a payload referencing an `ad` sets the ad's status to
`completed`/`failed` (with the error message on failure), a payload
referencing a `reaction_video` updates the reaction video likewise.
(Stated for all rows of the job id; the claim's non-terminal case is
the instance.) -/
theorem terminal_events_contract (db : DB) (jobId : String) (d : EventData) (now : Nat)
    (entityId : Int) (msg : String) (hok : dbOk db = true) (herr : d.error = some msg) :
    (∀ r ∈ (handleJobEvent "completed" jobId d now db).jobs, r.job_id = jobId →
        r.status = .completed ∧ r.progress = 100 ∧ r.completed_at = some now)
    ∧ (∀ r ∈ (handleJobEvent "error" jobId d now db).jobs, r.job_id = jobId →
        r.status = .failed ∧ r.error_message = some msg
          ∧ r.error_stack = some (d.stack.getD "") ∧ r.completed_at = some now)
    ∧ (d.referenceType = some "ad" → d.referenceId = some entityId →
        (∀ a ∈ (handleJobEvent "completed" jobId d now db).ads, a.id = entityId →
            a.status = "completed" ∧ a.error_message = none)
        ∧ (∀ a ∈ (handleJobEvent "error" jobId d now db).ads, a.id = entityId →
            a.status = "failed" ∧ a.error_message = some msg))
    ∧ (d.referenceType = some "reaction_video" → d.referenceId = some entityId →
        (∀ a ∈ (handleJobEvent "completed" jobId d now db).reactions, a.id = entityId →
            a.status = "completed" ∧ a.error_message = none)
        ∧ (∀ a ∈ (handleJobEvent "error" jobId d now db).reactions, a.id = entityId →
            a.status = "failed" ∧ a.error_message = some msg)) := by
  refine ⟨?_, ?_, ?_, ?_⟩
  · intro r hr hj
    rw [handleJobEvent_completed_jobs] at hr
    rcases row_of_mem_map_update hr with ⟨r0, _, _, rfl⟩ | ⟨_, hne⟩
    · exact ⟨rfl, rfl, rfl⟩
    · rw [hj] at hne
      simp at hne
  · intro r hr hj
    rw [handleJobEvent_error_jobs jobId d now hok] at hr
    rcases row_of_mem_map_update hr with ⟨r0, _, _, rfl⟩ | ⟨_, hne⟩
    · exact ⟨rfl, by rw [herr] at *; exact ⟨rfl, rfl, rfl⟩⟩
    · rw [hj] at hne
      simp at hne
  · intro hrt hri
    have hb : (d.referenceType == some "ad") = true := by
      rw [hrt]
      rfl
    constructor
    · have hads : (handleJobEvent "completed" jobId d now db).ads
          = db.ads.map (fun a => if some a.id == some entityId then
              { a with status := "completed", error_message := none } else a) := by
        rw [handleJobEvent_completed, completeJob_ok]
        simp only [hb, if_true]
        rw [hri]
        rfl
      intro a ha hai
      rw [hads] at ha
      exact entity_status_after_update db.ads entityId "completed" none a ha hai
    · have hads : (handleJobEvent "error" jobId d now db).ads
          = db.ads.map (fun a => if some a.id == some entityId then
              { a with status := "failed", error_message := some msg } else a) := by
        rw [handleJobEvent_error, failJob_ok jobId d.error (some (d.stack.getD "")) now hok]
        simp only [hb, if_true]
        rw [hri, herr]
        rfl
      intro a ha hai
      rw [hads] at ha
      exact entity_status_after_update db.ads entityId "failed" (some msg) a ha hai
  · intro hrt hri
    have hb1 : (d.referenceType == some "ad") = false := by
      rw [hrt]
      rfl
    have hb2 : (d.referenceType == some "reaction_video") = true := by
      rw [hrt]
      rfl
    constructor
    · have hre : (handleJobEvent "completed" jobId d now db).reactions
          = db.reactions.map (fun a => if some a.id == some entityId then
              { a with status := "completed", error_message := none } else a) := by
        rw [handleJobEvent_completed, completeJob_ok]
        simp only [hb1, hb2, Bool.false_eq_true, if_false, if_true]
        rw [hri]
        rfl
      intro a ha hai
      rw [hre] at ha
      exact entity_status_after_update db.reactions entityId "completed" none a ha hai
    · have hre : (handleJobEvent "error" jobId d now db).reactions
          = db.reactions.map (fun a => if some a.id == some entityId then
              { a with status := "failed", error_message := some msg } else a) := by
        rw [handleJobEvent_error, failJob_ok jobId d.error (some (d.stack.getD "")) now hok]
        simp only [hb1, hb2, Bool.false_eq_true, if_false, if_true]
        rw [hri, herr]
        rfl
      intro a ha hai
      rw [hre] at ha
      exact entity_status_after_update db.reactions entityId "failed" (some msg) a ha hai

/-- The error payload of scenario 4, referencing the emotion job `J2`'s
reaction video 2. -/
def dErrJ2 : EventData :=
  { EventData.empty with referenceType := some "reaction_video", referenceId := some 2
                         error := some "decode failed" }

/-- The row scenario 4 should produce: `J2` moved straight from `queued`
to `failed`. -/
def rowFailedJ2 : JobRow :=
  { rowQueuedJ2 with status := .failed, error_message := some "decode failed"
                     error_stack := some "", completed_at := some 4 }

/-- The reaction-video row after the failure is propagated. -/
def reactionFailedRow : EntityRow :=
  { id := 2, status := "failed", error_message := some "decode failed" }

/-- Witness for C6: scenario 4 — an error event with message
`decode failed` for the still-queued emotion job `J2` yields exactly the
failed ledger row, and the propagation marks reaction video 2 failed. -/
theorem terminal_events_contract_witness :
    (rowFailedJ2.status = .failed ∧ rowFailedJ2.error_message = some "decode failed"
      ∧ rowFailedJ2.error_stack = some (dErrJ2.stack.getD "")
      ∧ rowFailedJ2.completed_at = some 4)
    ∧ (reactionFailedRow.status = "failed"
      ∧ reactionFailedRow.error_message = some "decode failed") :=
  ⟨(terminal_events_contract dbQueued "J2" dErrJ2 4 2 "decode failed"
      (by decide) rfl).2.1 rowFailedJ2 (by decide) rfl,
   ((terminal_events_contract dbQueued "J2" dErrJ2 4 2 "decode failed"
      (by decide) rfl).2.2.2 rfl rfl).2 reactionFailedRow (by decide) rfl⟩

theorem processMessages_db_of_log (msgs : List RawMsg) (db : DB) (e e2 : Nat) :
    (processMessages ⟨db, e⟩ msgs).db = (processMessages ⟨db, e2⟩ msgs).db := by
  induction msgs generalizing db e e2 with
  | nil => rfl
  | cons m rest ih =>
      cases m with
      | malformed => exact ih db (e + 1) (e2 + 1)
      | valid et j d n => exact ih _ e e2

/-- C7: a malformed message on the event channel is caught by the
`pmessage` handler's `try/catch` before any ledger access: it only adds a
log entry, the resulting ledger is exactly the one produced by the
remaining well-formed messages, which are processed normally
(`processMessage` and `processMessages` are total, so no crash is
possible).  A ledger write failure during event handling (here: the
UPDATE rejected by the check constraint) is caught inside
`handleJobEvent`: the event is dropped with no retry and the database is
returned unchanged. -/
theorem malformed_logged_and_dropped (db : DB) (e : Nat) (msgs : List RawMsg)
    (jobId : String) (d : EventData) (now : Nat)
    (hfail : updateJobProgress db jobId (d.progress.getD 0) (d.step.getD "") now
      = .error ()) :
    processMessages ⟨db, e⟩ (.malformed :: msgs) = processMessages ⟨db, e + 1⟩ msgs
    ∧ (processMessages ⟨db, e⟩ (.malformed :: msgs)).db
        = (processMessages ⟨db, e⟩ msgs).db
    ∧ handleJobEvent "progress" jobId d now db = db := by
  refine ⟨rfl, ?_, handleJobEvent_progress_drop hfail⟩
  show (processMessages ⟨db, e + 1⟩ msgs).db = (processMessages ⟨db, e⟩ msgs).db
  exact processMessages_db_of_log msgs db (e + 1) e

/-- Witness for C7: a malformed message followed by a valid progress
event on `J2` yields the same ledger as the valid event alone, and the
out-of-range write failure for progress 200 is dropped. -/
theorem malformed_logged_and_dropped_witness :
    processMessages ⟨dbQueued, 0⟩ [.malformed, .valid "progress" "J2" (dProg 40) 3]
      = processMessages ⟨dbQueued, 1⟩ [.valid "progress" "J2" (dProg 40) 3]
    ∧ (processMessages ⟨dbQueued, 0⟩ [.malformed, .valid "progress" "J2" (dProg 40) 3]).db
        = (processMessages ⟨dbQueued, 0⟩ [.valid "progress" "J2" (dProg 40) 3]).db
    ∧ handleJobEvent "progress" "J2" (dProg 200) 4 dbQueued = dbQueued :=
  malformed_logged_and_dropped dbQueued 0 [.valid "progress" "J2" (dProg 40) 3]
    "J2" (dProg 200) 4 (by rfl)

theorem hub_subscribedTo_iff (h : Hub) (sid jobId : String) :
    h.subscribedTo sid jobId = true
      ↔ ∃ c ∈ h.conns, c.sid = sid ∧ jobRoom jobId ∈ c.rooms := by
  unfold Hub.subscribedTo
  rw [List.any_eq_true]
  constructor
  · rintro ⟨c, hc, hb⟩
    rw [Bool.and_eq_true] at hb
    exact ⟨c, hc, by simpa using hb.1, by simpa using hb.2⟩
  · rintro ⟨c, hc, h1, h2⟩
    exact ⟨c, hc, by simp [h1, h2]⟩

theorem hub_mem_broadcast_iff (h : Hub) (sid jobId : String) :
    sid ∈ h.broadcast jobId ↔ h.subscribedTo sid jobId = true := by
  unfold Hub.broadcast
  rw [List.mem_map, hub_subscribedTo_iff]
  constructor
  · rintro ⟨c, hc, rfl⟩
    rw [List.mem_filter] at hc
    exact ⟨c, hc.1, rfl, by simpa using hc.2⟩
  · rintro ⟨c, hc, rfl, h2⟩
    exact ⟨c, List.mem_filter.mpr ⟨hc, by simpa using h2⟩, rfl⟩

theorem hub_unsubscribe_off (h : Hub) (sid jobId : String) :
    (h.unsubscribeJob sid jobId).subscribedTo sid jobId = false := by
  unfold Hub.unsubscribeJob Hub.subscribedTo
  rw [Bool.eq_false_iff]
  intro hm
  rw [List.any_eq_true] at hm
  obtain ⟨c, hc, hb⟩ := hm
  rw [List.mem_map] at hc
  obtain ⟨c0, h0, rfl⟩ := hc
  by_cases hs : c0.sid == sid
  · rw [if_pos hs] at hb
    simp [List.mem_filter] at hb
  · rw [if_neg hs] at hb
    rw [Bool.and_eq_true] at hb
    exact hs hb.1

theorem hub_disconnect_off (h : Hub) (sid topic : String) :
    (h.disconnect sid).subscribedTo sid topic = false := by
  unfold Hub.disconnect Hub.subscribedTo
  rw [Bool.eq_false_iff]
  intro hm
  rw [List.any_eq_true] at hm
  obtain ⟨c, hc, hb⟩ := hm
  rw [List.mem_filter] at hc
  rw [Bool.and_eq_true] at hb
  have h1 := hc.2
  simp [hb.1] at h1
  exact absurd (by simpa using hb.1) h1

theorem contains_append_singleton_ne {l : List String} {a b : String} (h : a ≠ b) :
    (l ++ [b]).contains a = l.contains a := by
  by_cases hm : a ∈ l
  · simp [hm]
  · simp [hm, h]

theorem contains_filter_ne {l : List String} {a b : String} (h : a ≠ b) :
    (l.filter (fun r => r != b)).contains a = l.contains a := by
  by_cases hm : a ∈ l
  · simp [List.elem_eq_mem, hm, h, List.mem_filter]
  · simp [List.elem_eq_mem, hm, h, List.mem_filter]

theorem hub_subscribe_isolated (h : Hub) (sid sid2 jobId topic : String)
    (hne : jobId ≠ topic) :
    (h.subscribeJob sid jobId).subscribedTo sid2 topic = h.subscribedTo sid2 topic := by
  have hroom : jobRoom topic ≠ jobRoom jobId := fun hh => hne (jobRoom_inj hh).symm
  unfold Hub.subscribeJob Hub.subscribedTo
  rw [List.any_map]
  congr 1
  funext c
  simp only [Function.comp]
  by_cases hs : c.sid == sid
  · rw [if_pos hs]
    by_cases hcont : c.rooms.contains (jobRoom jobId)
    · have hmem : jobRoom jobId ∈ c.rooms := by simpa using hcont
      simp [hmem]
    · simp only [hcont, if_false]
      show (c.sid == sid2 && (c.rooms ++ [jobRoom jobId]).contains (jobRoom topic)) = _
      rw [contains_append_singleton_ne hroom]
  · rw [if_neg hs]

theorem hub_unsubscribe_isolated (h : Hub) (sid sid2 jobId topic : String)
    (hne : jobId ≠ topic) :
    (h.unsubscribeJob sid jobId).subscribedTo sid2 topic = h.subscribedTo sid2 topic := by
  have hroom : jobRoom topic ≠ jobRoom jobId := fun hh => hne (jobRoom_inj hh).symm
  unfold Hub.unsubscribeJob Hub.subscribedTo
  rw [List.any_map]
  congr 1
  funext c
  simp only [Function.comp]
  by_cases hs : c.sid == sid
  · rw [if_pos hs]
    show (c.sid == sid2 && (c.rooms.filter (fun room => room != jobRoom jobId)).contains
      (jobRoom topic)) = _
    rw [contains_filter_ne hroom]
  · rw [if_neg hs]

/-- C8: a broadcast on a job's topic reaches exactly the connections
currently subscribed to that topic: membership in the delivered set is
equivalent to being subscribed (so a connection not subscribed — e.g.
subscribed only to other topics — receives nothing); after
`unsubscribe:job` the connection is no longer subscribed and a broadcast
no longer reaches it; after a disconnect the connection is subscribed to
no topic at all and a broadcast reaches it on none; and subscribing or
unsubscribing one topic never changes any connection's subscription to a
different topic (topics are fully isolated). -/
theorem hub_fanout_exact (h : Hub) (sid sid2 jobId topic : String) :
    (sid ∈ h.broadcast jobId ↔ h.subscribedTo sid jobId = true)
    ∧ (h.unsubscribeJob sid jobId).subscribedTo sid jobId = false
    ∧ sid ∉ (h.unsubscribeJob sid jobId).broadcast jobId
    ∧ (h.disconnect sid).subscribedTo sid topic = false
    ∧ sid ∉ (h.disconnect sid).broadcast topic
    ∧ (jobId ≠ topic →
        (h.subscribeJob sid jobId).subscribedTo sid2 topic = h.subscribedTo sid2 topic
        ∧ (h.unsubscribeJob sid jobId).subscribedTo sid2 topic
            = h.subscribedTo sid2 topic) := by
  refine ⟨hub_mem_broadcast_iff h sid jobId, hub_unsubscribe_off h sid jobId, ?_,
          hub_disconnect_off h sid topic, ?_, ?_⟩
  · intro hm
    rw [hub_mem_broadcast_iff, hub_unsubscribe_off] at hm
    exact Bool.false_ne_true hm
  · intro hm
    rw [hub_mem_broadcast_iff, hub_disconnect_off] at hm
    exact Bool.false_ne_true hm
  · intro hne
    exact ⟨hub_subscribe_isolated h sid sid2 jobId topic hne,
           hub_unsubscribe_isolated h sid sid2 jobId topic hne⟩

/-- A hub with connection `A` subscribed to `J1` and `B` to `J2`. -/
def hub0 : Hub :=
  { conns := [{ sid := "A", rooms := ["job:J1"] }, { sid := "B", rooms := ["job:J2"] }] }

/-- Witness for C8 on the two-connection hub `hub0`. -/
theorem hub_fanout_exact_witness :
    ("A" ∈ hub0.broadcast "J1" ↔ hub0.subscribedTo "A" "J1" = true)
    ∧ (hub0.unsubscribeJob "A" "J1").subscribedTo "A" "J1" = false
    ∧ "A" ∉ (hub0.unsubscribeJob "A" "J1").broadcast "J1"
    ∧ (hub0.disconnect "A").subscribedTo "A" "J2" = false
    ∧ "A" ∉ (hub0.disconnect "A").broadcast "J2"
    ∧ ((hub0.subscribeJob "A" "J1").subscribedTo "B" "J2" = hub0.subscribedTo "B" "J2"
       ∧ (hub0.unsubscribeJob "A" "J1").subscribedTo "B" "J2"
           = hub0.subscribedTo "B" "J2") :=
  ⟨(hub_fanout_exact hub0 "A" "B" "J1" "J2").1,
   (hub_fanout_exact hub0 "A" "B" "J1" "J2").2.1,
   (hub_fanout_exact hub0 "A" "B" "J1" "J2").2.2.1,
   (hub_fanout_exact hub0 "A" "B" "J1" "J2").2.2.2.1,
   (hub_fanout_exact hub0 "A" "B" "J1" "J2").2.2.2.2.1,
   (hub_fanout_exact hub0 "A" "B" "J1" "J2").2.2.2.2.2 (by decide)⟩

/-- An observer that has just seen a failed job. -/
def obsFailed : ObserverState :=
  { progress := 0, step := "Failed", status := "failed", error := some "boom"
    result := none, frameResults := [], sub := none }

/-- C9 counterexample: a falsy job id does not clear all retained per-job
data: the effect resets status, progress, step and frame results but
never calls `setError(null)`/`setResult(null)`, so the previous job's
`error` (here `some "boom"`) survives the reset. -/
theorem falsy_reset_counterexample :
    ¬ (∀ (s : ObserverState) (j : Option String), isFalsyJobId j = true →
        (setJobId s j).sub = none ∧ (setJobId s j).status = "idle"
        ∧ (setJobId s j).progress = 0 ∧ (setJobId s j).step = ""
        ∧ (setJobId s j).frameResults = [] ∧ (setJobId s j).error = none
        ∧ (setJobId s j).result = none) := by
  intro h
  have := (h obsFailed none rfl).2.2.2.2.2.1
  exact absurd this (by decide)

/-- C9 (amended): supplying a falsy job id performs no subscription and
resets status to `idle`, progress to 0, step to empty and clears the
streamed frame results — but the previous job's `error` and `result`
values are retained, not cleared.  Whenever the job id changes or the
observer is disposed, the previous subscription is released: after
`setJobId` the only live subscription is the new job's topic (none when
falsy), and after disposal there is none. -/
theorem falsy_reset_retains_error (s : ObserverState) (j : Option String) :
    (isFalsyJobId j = true →
      setJobId s j = { s with status := "idle", progress := 0, step := ""
                              frameResults := [], sub := none })
    ∧ (setJobId s j).sub = (if isFalsyJobId j then none else j)
    ∧ (disposeObserver s).sub = none := by
  refine ⟨?_, ?_, rfl⟩
  · intro hf
    unfold setJobId effectRun effectCleanup
    rw [if_pos hf]
  · unfold setJobId effectRun effectCleanup
    by_cases hf : isFalsyJobId j
    · rw [if_pos hf, if_pos hf]
    · rw [if_neg hf, if_neg hf]

/-- Witness for C9 (amended) on the failed observer: the falsy reset
keeps `error = some "boom"`, and switching to job `K` subscribes to `K`
alone. -/
theorem falsy_reset_retains_error_witness :
    setJobId obsFailed none
      = { obsFailed with status := "idle", progress := 0, step := ""
                         frameResults := [], sub := none }
    ∧ (setJobId obsFailed (some "K")).sub = some "K" :=
  ⟨(falsy_reset_retains_error obsFailed none).1 rfl,
   (falsy_reset_retains_error obsFailed (some "K")).2.1⟩

end Evoke
